import Mathlib

/-!
Verification development for the GestureInteraction repository.

The simulation core is shallowly embedded over exact rational arithmetic:
JavaScript numbers become ℚ, the flat stride-3 Float32Arrays become lists of
3D vectors, and the browser/GPU objects (canvas, renderer, mesh attribute
upload flags) are treated as external collaborators.  Calls to Math.sqrt are
modelled by an explicit function parameter rsqrt : ℚ → ℚ; theorems that need
properties of the square root state them as hypotheses on that parameter.
Division by zero in ℚ is total (x / 0 = 0); no claim below depends on a
division-by-zero corner.
-/

set_option maxHeartbeats 1000000

namespace GestureInteraction

/-- 3D vector over ℚ, modelling THREE.Vector3 as used by the simulation. -/
structure V3 where
  x : ℚ
  y : ℚ
  z : ℚ
deriving DecidableEq, Repr

/-- Zero vector, modelling new THREE.Vector3(0, 0, 0). -/
def V3.zero : V3 := ⟨0, 0, 0⟩

instance : Add V3 := ⟨fun a b => ⟨a.x + b.x, a.y + b.y, a.z + b.z⟩⟩

instance : Sub V3 := ⟨fun a b => ⟨a.x - b.x, a.y - b.y, a.z - b.z⟩⟩

instance : SMul ℚ V3 := ⟨fun q v => ⟨q * v.x, q * v.y, q * v.z⟩⟩

/-- Componentwise division of a vector by a scalar (colors[idx] /= prevFade). -/
def V3.divc (v : V3) (q : ℚ) : V3 := ⟨v.x / q, v.y / q, v.z / q⟩

/-- Componentwise multiplication of a vector by a scalar from the right. -/
def V3.mulc (v : V3) (q : ℚ) : V3 := ⟨v.x * q, v.y * q, v.z * q⟩

/-- Dot product of two vectors. -/
def V3.dot (a b : V3) : ℚ := a.x * b.x + a.y * b.y + a.z * b.z

@[simp] theorem V3.add_x (a b : V3) : (a + b).x = a.x + b.x := rfl

@[simp] theorem V3.add_y (a b : V3) : (a + b).y = a.y + b.y := rfl

@[simp] theorem V3.add_z (a b : V3) : (a + b).z = a.z + b.z := rfl

@[simp] theorem V3.sub_x (a b : V3) : (a - b).x = a.x - b.x := rfl

@[simp] theorem V3.sub_y (a b : V3) : (a - b).y = a.y - b.y := rfl

@[simp] theorem V3.sub_z (a b : V3) : (a - b).z = a.z - b.z := rfl

@[simp] theorem V3.smul_x (q : ℚ) (v : V3) : (q • v).x = q * v.x := rfl

@[simp] theorem V3.smul_y (q : ℚ) (v : V3) : (q • v).y = q * v.y := rfl

@[simp] theorem V3.smul_z (q : ℚ) (v : V3) : (q • v).z = q * v.z := rfl

theorem V3.ext_comp {a b : V3} (hx : a.x = b.x) (hy : a.y = b.y) (hz : a.z = b.z) :
    a = b := by
  cases a; cases b; simp_all

/-- Squared distance between two vectors (no square root involved). -/
def V3.sqDist (a b : V3) : ℚ := V3.dot (a - b) (a - b)

theorem V3.dot_self_nonneg (a : V3) : 0 ≤ V3.dot a a := by
  unfold V3.dot
  nlinarith [sq_nonneg a.x, sq_nonneg a.y, sq_nonneg a.z]

/-! ## Constants from config.js -/

/-- EPS from glhand3D.js (1e-6). -/
def EPS : ℚ := 1 / 1000000

/-- DAMPING = 0.92 from config.js. -/
def DAMPING : ℚ := 23 / 25

/-- RETURN_SPEED = 0.08 from config.js. -/
def RETURN_SPEED : ℚ := 2 / 25

/-- EXPLOSION_FORCE = 2.0 from config.js. -/
def EXPLOSION_FORCE : ℚ := 2

/-- DEPTH_PUSH_STRENGTH = 0.18 from config.js. -/
def DEPTH_PUSH_STRENGTH : ℚ := 9 / 50

/-- OCCLUSION_MAX_FADE = 0.75 from config.js. -/
def OCCLUSION_MAX_FADE : ℚ := 3 / 4

/-- DEPTH_SCALE = 35 from config.js. -/
def DEPTH_SCALE : ℚ := 35

/-- GESTURE_STABILITY_FRAMES = 3 from config.js. -/
def GESTURE_STABILITY_FRAMES : ℕ := 3

/-- GESTURE_HISTORY_SIZE = 10 from config.js. -/
def GESTURE_HISTORY_SIZE : ℕ := 10

/-! ## Gesture labels (GestureShape in config.js) -/

/-- GestureShape enumeration from config.js. -/
inductive Gesture where
  | sphere
  | ring
  | star
  | heart
  | text
  | dragon
deriving DecidableEq, Repr

/-! ## Gesture stabilizer (getStableGesture in debug.js)

The relevant mutable state is State.gestureHistory (a list of raw labels,
null modelled as none) and State.currentShape (the committed label). -/

/-- Stabilizer-relevant slice of the global State object. -/
structure StabState where
  gestureHistory : List (Option Gesture)
  currentShape : Gesture
deriving DecidableEq, Repr

/-- Commit decision of getStableGesture on the post-push history: return
null when the history is shorter than GESTURE_STABILITY_FRAMES; otherwise
look at the last GESTURE_STABILITY_FRAMES entries (slice(-3)), whose first
element must be non-null, all entries must equal it, and it must differ
from the committed State.currentShape. -/
def stabCommit (h2 : List (Option Gesture)) (cur : Gesture) : Option Gesture :=
  if h2.length < GESTURE_STABILITY_FRAMES then none
  else
    let recent := h2.drop (h2.length - GESTURE_STABILITY_FRAMES)
    match recent.head? with
    | some (some g) =>
        if recent.all (fun x => x = some g) then
          if g ≠ cur then some g else none
        else none
    | _ => none

/-- getStableGesture from debug.js: push the newest raw label, evict beyond
GESTURE_HISTORY_SIZE (shift drops the oldest entry), and return the updated
state together with the commit label (null modelled as none). -/
def getStableGesture (s : StabState) (newGesture : Option Gesture) :
    StabState × Option Gesture :=
  let h1 := s.gestureHistory ++ [newGesture]
  let h2 := if GESTURE_HISTORY_SIZE < h1.length then h1.tail else h1
  (⟨h2, s.currentShape⟩, stabCommit h2 s.currentShape)

/-! ## Gesture classifier (recognizeGesture in debug.js) -/

/-- One MediaPipe landmark: normalized x, y in [0,1] plus relative depth z. -/
structure LM where
  x : ℚ
  y : ℚ
  z : ℚ
deriving DecidableEq, Repr

/-- A full hand detection: 21 ordered landmarks. -/
def Landmarks : Type := Fin 21 → LM

/-- Planar distance between two landmarks, Math.hypot(p1.x-p2.x, p1.y-p2.y);
rsqrt models Math.sqrt. -/
def lmDist (rsqrt : ℚ → ℚ) (p1 p2 : LM) : ℚ :=
  rsqrt ((p1.x - p2.x) * (p1.x - p2.x) + (p1.y - p2.y) * (p1.y - p2.y))

/-- isExtended from recognizeGesture: a digit counts as extended when the
wrist-to-tip over wrist-to-pip ratio and the wrist-to-pip over wrist-to-mcp
ratio both exceed their thresholds (looser thresholds for the thumb index 4). -/
def isExtended (rsqrt : ℚ → ℚ) (lms : Landmarks) (tipIdx pipIdx mcpIdx : Fin 21) : Bool :=
  let dTip := lmDist rsqrt (lms 0) (lms tipIdx)
  let dPip := lmDist rsqrt (lms 0) (lms pipIdx)
  let dMcp := lmDist rsqrt (lms 0) (lms mcpIdx)
  let ratio := dTip / dPip
  let pipMcpRatio := dPip / dMcp
  if tipIdx = (4 : Fin 21) then
    decide ((23 : ℚ) / 20 < ratio) && decide ((17 : ℚ) / 20 < pipMcpRatio)
  else
    decide ((5 : ℚ) / 4 < ratio) && decide ((9 : ℚ) / 10 < pipMcpRatio)

/-- isThumbUp from recognizeGesture: thumb length over wrist-to-mcp distance
exceeds 0.4, the thumb points up, and the tip is above the pip. -/
def isThumbUp (rsqrt : ℚ → ℚ) (lms : Landmarks) : Bool :=
  let thumbMcp := lms 2
  let thumbPip := lms 3
  let thumbTip := lms 4
  let wrist := lms 0
  let thumbDirectionY := thumbTip.y - thumbMcp.y
  let thumbLength := lmDist rsqrt thumbMcp thumbTip
  let wristToMcp := lmDist rsqrt wrist thumbMcp
  decide ((2 : ℚ) / 5 < thumbLength / wristToMcp) &&
    decide (thumbDirectionY < 0) && decide (thumbTip.y < thumbPip.y)

/-- recognizeGesture from debug.js: compute the five per-digit extension
flags, then run the hard-coded first-match priority chain
Text, Star, Heart, Sphere (five digits), Ring (zero digits), null. -/
def recognizeGesture (rsqrt : ℚ → ℚ) (lms : Landmarks) : Option Gesture :=
  let thumbOpen := isThumbUp rsqrt lms
  let indexOpen := isExtended rsqrt lms 8 6 5
  let middleOpen := isExtended rsqrt lms 12 10 9
  let ringOpen := isExtended rsqrt lms 16 14 13
  let pinkyOpen := isExtended rsqrt lms 20 18 17
  let fingersCount :=
    ([thumbOpen, indexOpen, middleOpen, ringOpen, pinkyOpen].filter (fun b => b)).length
  if indexOpen && middleOpen && !ringOpen && !pinkyOpen && !thumbOpen then
    some Gesture.text
  else if indexOpen && !middleOpen && !ringOpen && !pinkyOpen && !thumbOpen then
    some Gesture.star
  else if thumbOpen && !indexOpen && !middleOpen && !ringOpen && !pinkyOpen then
    some Gesture.heart
  else if fingersCount = 5 then some Gesture.sphere
  else if fingersCount = 0 then some Gesture.ring
  else none

/-- Modelled from the spec wording of section 4.3: label selection in fixed
priority order over the five extension flags (thumb, index, middle, ring,
pinky), where case 4 is exactly five digits extended and case 5 exactly
zero digits extended, counted by summing the flags. -/
def classifyPriority (t i m r p : Bool) : Option Gesture :=
  if i && m && !r && !p && !t then some Gesture.text
  else if i && !m && !r && !p && !t then some Gesture.star
  else if t && !i && !m && !r && !p then some Gesture.heart
  else if t.toNat + i.toNat + m.toNat + r.toNat + p.toNat = 5 then some Gesture.sphere
  else if t.toNat + i.toNat + m.toNat + r.toNat + p.toNat = 0 then some Gesture.ring
  else none

/-! ## Pose normalizer (glhand3D.js) -/

/-- THREE.MathUtils.clamp(value, lo, hi). -/
def clampQ (value lo hi : ℚ) : ℚ := max lo (min hi value)

/-- THREE.MathUtils.lerp(x, y, t) = (1 - t) * x + t * y. -/
def lerpQ (a b t : ℚ) : ℚ := (1 - t) * a + t * b

/-- worldifyLandmarks from glhand3D.js: map each normalized landmark to world
space via x' = (0.5 - x) * 10, y' = (0.5 - y) * 8, z' = z * scaleZ where
scaleZ falls back to 35 when depthScale is falsy (0); an empty or absent
input list yields the empty array. -/
def worldifyLandmarks (landmarks : List LM) (depthScale : ℚ) : List V3 :=
  if landmarks.isEmpty then []
  else
    let scaleZ := if depthScale = 0 then (35 : ℚ) else depthScale
    landmarks.map (fun lm => ⟨(1/2 - lm.x) * 10, (1/2 - lm.y) * 8, lm.z * scaleZ⟩)

/-- computeHandCenter from glhand3D.js: the centroid is the sum of the world
landmarks scaled by 1/length; an empty input yields the zero vector. -/
def computeHandCenter (worldLandmarks : List V3) : V3 :=
  if worldLandmarks.isEmpty then V3.zero
  else ((1 : ℚ) / worldLandmarks.length) • (worldLandmarks.foldl (· + ·) V3.zero)

/-- Maximum squared distance from the center across the landmarks, as the
maxSq accumulator loop of computeHandRadius computes it (starting at 0). -/
def maxSqDist (worldLandmarks : List V3) (center : V3) : ℚ :=
  worldLandmarks.foldl (fun m w => max m (V3.sqDist w center)) 0

/-- computeHandRadius from glhand3D.js: lerp the previous radius toward
sqrt(maxSq) * 1.05 with the clamped smoothing factor; an empty input returns
the previous radius unchanged.  rsqrt models Math.sqrt. -/
def computeHandRadius (rsqrt : ℚ → ℚ) (worldLandmarks : List V3) (center : V3)
    (prevRadius smoothing : ℚ) : ℚ :=
  if worldLandmarks.isEmpty then prevRadius
  else
    let target := rsqrt (maxSqDist worldLandmarks center) * (21 / 20)
    let t := clampQ smoothing 0 1
    lerpQ prevRadius target t

/-! ## Depth push (applyDepthPushToParticles in glhand3D.js) -/

/-- Per-particle body of the applyDepthPushToParticles loop: inside the
radius the velocity gains (dx/dist, dy/dist, dz/dist) * (1 - dist/radius) *
pushStrength with dist = sqrt(distSq) + EPS; at or beyond the radius it is
left unchanged. -/
def depthPushOne (rsqrt : ℚ → ℚ) (handCenter : V3) (radius pushStrength : ℚ)
    (p v : V3) : V3 :=
  let d := p - handCenter
  let distSq := V3.dot d d
  if distSq < radius * radius then
    let dist := rsqrt distSq + EPS
    let t := 1 - dist / radius
    let push := t * pushStrength
    v + (push / dist) • d
  else v

/-- applyDepthPushToParticles from glhand3D.js, on parallel equal-length
position/velocity lists (the source iterates the flat stride-3 arrays of the
particle mesh): returns the new velocities; radius is
max(handRadius * 1.2, EPS). -/
def applyDepthPushToParticles (rsqrt : ℚ → ℚ) (handCenter : V3)
    (handRadius pushStrength : ℚ) (positions velocities : List V3) : List V3 :=
  let radius := max (handRadius * (6 / 5)) EPS
  List.zipWith (depthPushOne rsqrt handCenter radius pushStrength) positions velocities

/-- Structure-of-arrays particle buffers, as owned by the particle mesh:
positions and colors live in the geometry attributes, velocities in
State.velocities. -/
structure Buffers where
  positions : List V3
  velocities : List V3
  colors : List V3
deriving DecidableEq, Repr

/-- applyDepthPushToParticles viewed as acting on the full particle buffers:
the source function only ever assigns to velocities[...]. -/
def applyDepthPushB (rsqrt : ℚ → ℚ) (handCenter : V3)
    (handRadius pushStrength : ℚ) (b : Buffers) : Buffers :=
  { b with velocities :=
      (applyDepthPushToParticles rsqrt handCenter handRadius pushStrength
        b.positions b.velocities) }

/-! ## Occlusion postprocessor (applyOcclusionToParticles in glhand3D.js) -/

/-- Per-particle body of the applyOcclusionToParticles loop.  Input is the
particle position, its stored color and its stored occlusion factor; output
is the new color, new factor and whether the entry changed.  prevFade is
occlusionFactors[i] || 1.  A particle with the hand absent, behind the hand
(dz ≤ 0) or laterally outside the radius has any residual fade divided back
out; otherwise the new fade is computed from the radial and depth factors
and applied only when it moved by more than 1e-3. -/
def occStep (rsqrt : ℚ → ℚ) (handPresent : Bool) (handCenter : V3)
    (handRadius maxFade radius : ℚ) (p c : V3) (f : ℚ) : V3 × ℚ × Bool :=
  let prevFade := if f = 0 then 1 else f
  let reset : V3 × ℚ × Bool :=
    if prevFade ≠ 1 then (c.divc prevFade, 1, true) else (c, f, false)
  if !handPresent then reset
  else
    let dx := p.x - handCenter.x
    let dy := p.y - handCenter.y
    let dz := p.z - handCenter.z
    if dz ≤ 0 then reset
    else
      let distSq := dx * dx + dy * dy
      if radius * radius < distSq then reset
      else
        let dist := rsqrt distSq + EPS
        let radialFactor := 1 - dist / radius
        let depthFactor := min 1 (dz / (handRadius * (3 / 2) + EPS))
        let fade := 1 - min maxFade (radialFactor * depthFactor * maxFade)
        if 1 / 1000 < |fade - prevFade| then
          ((c.divc prevFade).mulc fade, fade, true)
        else (c, f, false)

/-- The loop of applyOcclusionToParticles over the zipped parallel buffers,
collecting the new (color, factor) pairs and the OR of the changed flags. -/
def applyOcclusionCore (rsqrt : ℚ → ℚ) (handPresent : Bool) (handCenter : V3)
    (handRadius maxFade radius : ℚ) :
    List (V3 × V3 × ℚ) → List (V3 × ℚ) × Bool
  | [] => ([], false)
  | pcf :: rest =>
      let r := occStep rsqrt handPresent handCenter handRadius maxFade radius
        pcf.1 pcf.2.1 pcf.2.2
      let rr := applyOcclusionCore rsqrt handPresent handCenter handRadius
        maxFade radius rest
      ((r.1, r.2.1) :: rr.1, r.2.2 || rr.2)

/-- Result of one applyOcclusionToParticles call: the new color buffer, the
new occlusion factors, the changed flag (drives color.needsUpdate) and the
updated occlusionState.lastColorVersionApplied. -/
structure OccResult where
  colors : List V3
  factors : List ℚ
  changed : Bool
  lastColorVersionApplied : ℕ
deriving DecidableEq, Repr

/-- applyOcclusionToParticles from glhand3D.js on parallel equal-length
buffers: when the color version token differs from the last applied one all
occlusion factors are refilled with 1 before the loop; the radius is
max(handRadius * 1.25, EPS); the state records colorVersion at the end. -/
def applyOcclusionToParticles (rsqrt : ℚ → ℚ) (positions colors : List V3)
    (occlusionFactors : List ℚ) (handCenter : V3) (handRadius : ℚ)
    (handPresent : Bool) (maxFade : ℚ) (colorVersion lastColorVersionApplied : ℕ) :
    OccResult :=
  let factors :=
    if lastColorVersionApplied ≠ colorVersion then
      occlusionFactors.map (fun _ => (1 : ℚ))
    else occlusionFactors
  let radius := max (handRadius * (5 / 4)) EPS
  let res := applyOcclusionCore rsqrt handPresent handCenter handRadius maxFade
    radius (positions.zip (colors.zip factors))
  ⟨res.1.map Prod.fst, res.1.map Prod.snd, res.2, colorVersion⟩

/-! ## Particle physics (updateParticles in the particle-system module) -/

/-- Squared tier radii (r1Sq, r2Sq, r3Sq) of updateParticles, from
r1 = 0.45 * dynamicRadius, r2 = 1.0 * dynamicRadius, r3 = 1.7 * dynamicRadius. -/
def tierRadiiSq (dynamicRadius : ℚ) : ℚ × ℚ × ℚ :=
  let r1 := dynamicRadius * (9 / 20)
  let r2 := dynamicRadius * 1
  let r3 := dynamicRadius * (17 / 10)
  (r1 * r1, r2 * r2, r3 * r3)

/-- The scalar force of the hand force field in updateParticles, as a
function of the squared distance from the hand centroid: quadratic falloff
inside r1, quadratic falloff between r1 and r2, linear falloff between r2
and r3, zero at or beyond r3. -/
def handForce (r1Sq r2Sq r3Sq distSq : ℚ) : ℚ :=
  if distSq < r1Sq then
    let t := 1 - distSq / r1Sq
    (1 / 10) * t * t
  else if distSq < r2Sq then
    let t := 1 - (distSq - r1Sq) / (r2Sq - r1Sq)
    (7 / 200) * t * t
  else if distSq < r3Sq then
    let t := 1 - (distSq - r2Sq) / (r3Sq - r2Sq)
    (1 / 125) * t
  else 0

/-- The hand-force velocity update of updateParticles: subtract the force
times the centroid-to-particle vector (dx, dy, dz) from the velocity. -/
def applyHandForce (handCentroid : V3) (r1Sq r2Sq r3Sq : ℚ) (p v : V3) : V3 :=
  let d := p - handCentroid
  v - handForce r1Sq r2Sq r3Sq (V3.dot d d) • d

/-- One iteration of the updateParticles per-particle loop: hand force when
the hand is present, explosion jitter when exploding (jitter models the
three Math.random() - 0.5 draws), target-seeking spring, damping, and
position integration.  Returns the new (position, velocity). -/
def updateParticle (handPresent isExploding : Bool) (handCentroid : V3)
    (r1Sq r2Sq r3Sq : ℚ) (jitter : V3) (p t v : V3) : V3 × V3 :=
  let v1 := if handPresent then applyHandForce handCentroid r1Sq r2Sq r3Sq p v else v
  let v2 := if isExploding then v1 + EXPLOSION_FORCE • jitter else v1
  let v3 := v2 + RETURN_SPEED • (t - p)
  let v4 := DAMPING • v3
  (p + v4, v4)

/-- updateParticles from the particle-system module, over parallel
equal-length position/target/velocity lists; jitter i supplies the random
explosion draws for particle i. -/
def updateParticles (jitter : ℕ → V3) (handPresent isExploding : Bool)
    (handCentroid : V3) (dynamicRadius : ℚ)
    (positions targets velocities : List V3) : List V3 × List V3 :=
  let rs := tierRadiiSq dynamicRadius
  let l := (positions.zip (targets.zip velocities)).mapIdx
    (fun i ptv => updateParticle handPresent isExploding handCentroid
      rs.1 rs.2.1 rs.2.2 (jitter i) ptv.1 ptv.2.1 ptv.2.2)
  (l.map Prod.fst, l.map Prod.snd)

/-- One zero-forcing tick for a single particle: hand absent, not exploding,
and the target equal to the current position, exactly as in the C4 claim. -/
def coastStep (pv : V3 × V3) : V3 × V3 :=
  updateParticle false false V3.zero 0 0 0 V3.zero pv.1 pv.1 pv.2

/-- T consecutive zero-forcing updateParticles ticks for one particle. -/
def coast : ℕ → V3 × V3 → V3 × V3
  | 0, pv => pv
  | n + 1, pv => coast n (coastStep pv)

/-! ## Text shape generator tail (generateText in the particle-system module)

The canvas rasterization is an external collaborator; its output is the
collected validPoints list.  The final loop reads validPoints[i % len] with
len = validPoints.length || 1 and writes the target coordinates; reading a
missing element (undefined followed by .x) throws, which the embedding
models by returning none. -/

/-- One rasterized foreground point collected by generateText. -/
structure P2 where
  x : ℚ
  y : ℚ
deriving DecidableEq, Repr

/-- The target-filling loop at the end of generateText: wrap-sample the
valid points over n particles; randZ i models the Math.random() draw of
particle i.  Returns none when an element access falls off the array (the
JavaScript TypeError on point.x). -/
def fillTargetsFromPoints (validPoints : List P2) (randZ : ℕ → ℚ) (n : ℕ) :
    Option (List V3) :=
  let len := if validPoints.length = 0 then 1 else validPoints.length
  (List.range n).mapM (fun i =>
    (validPoints.get? (i % len)).map (fun point =>
      (⟨point.x, point.y, (randZ i - 1/2) * 1⟩ : V3)))

/-! ## Rainbow color pass (rainbowParticles in the particle-system module) -/

/-- Fractional part, modelling both THREE.MathUtils.euclideanModulo(x, 1)
and the JavaScript x % 1 on the nonnegative values it is applied to here. -/
def fract1 (x : ℚ) : ℚ := x - ⌊x⌋

/-- hue2rgb helper of THREE.Color.setHSL. -/
def hue2rgb (p q t0 : ℚ) : ℚ :=
  let t1 := if t0 < 0 then t0 + 1 else t0
  let t := if 1 < t1 then t1 - 1 else t1
  if t < 1 / 6 then p + (q - p) * 6 * t
  else if t < 1 / 2 then q
  else if t < 2 / 3 then p + (q - p) * 6 * (2 / 3 - t)
  else p

/-- THREE.Color.setHSL, returning the (r, g, b) triple as a V3. -/
def setHSL (h0 s0 l0 : ℚ) : V3 :=
  let h := fract1 h0
  let s := clampQ s0 0 1
  let l := clampQ l0 0 1
  if s = 0 then ⟨l, l, l⟩
  else
    let p := if l ≤ 1 / 2 then l * (1 + s) else l + s - l * s
    let q := 2 * l - p
    ⟨hue2rgb q p (h + 1 / 3), hue2rgb q p h, hue2rgb q p (h - 1 / 3)⟩

/-- The recoloring loop of rainbowParticles: particle i gets the HSL color
with hue (i / PARTICLE_COUNT + hueOffset) % 1, saturation 1, lightness 0.5;
the particle count is the length of the color buffer. -/
def rainbowColors (hueOffset : ℚ) (colors : List V3) : List V3 :=
  colors.mapIdx (fun i _ =>
    setHSL (fract1 ((i : ℚ) / colors.length + hueOffset)) 1 (1 / 2))

/-! ## Frame scheduler (animate in the particle-system module)

One tick of animate over the simulation-relevant slice of the State object.
External collaborators dropped from the model: requestAnimationFrame
scheduling, the renderer call, the GPU needsUpdate upload flags and the
debug HUD read.  The functions sinF and cosF model Math.sin and Math.cos,
rsqrt models Math.sqrt, jitter models the explosion randomness and
rainbowInterval is the device-dependent RAINBOW_UPDATE_INTERVAL. -/

/-- Simulation-relevant slice of the State object from config.js, plus the
particle mesh transform. -/
structure SimState where
  time : ℚ
  lastHandTimestamp : ℚ
  handPresent : Bool
  followVelocity : V3
  rainbowMode : Bool
  rainbowFrameCounter : ℕ
  hueOffset : ℚ
  positions : List V3
  velocities : List V3
  targets : List V3
  colors : List V3
  occlusionFactors : List ℚ
  colorVersion : ℕ
  lastColorVersionApplied : ℕ
  colorDirty : Bool
  handCentroid : V3
  handRadius3D : ℚ
  dynamicRadius : ℚ
  isExploding : Bool
  meshRotation : V3
  meshScale : V3
  meshPosition : V3
deriving DecidableEq, Repr

/-- State.time += 0.01 at the top of animate. -/
def tickTime (s : SimState) : SimState := { s with time := s.time + 1 / 100 }

/-- The staleness check of animate: when now - State.lastHandTimestamp
exceeds 800 ms, State.handPresent is cleared and State.followVelocity is
zeroed. -/
def tickStale (now : ℚ) (s : SimState) : SimState :=
  if 800 < now - s.lastHandTimestamp then
    { s with handPresent := false, followVelocity := V3.zero }
  else s

/-- The rainbow block of animate: bump the frame counter, and every
rainbowInterval frames advance the hue offset (wrapping above 1) and run
rainbowParticles, which recolors the buffer, bumps the color version via
markColorsUpdated, and leaves colorDirty false because the particle mesh
flushes it immediately. -/
def tickRainbow (rainbowInterval : ℕ) (s : SimState) : SimState :=
  if s.rainbowMode then
    let c := s.rainbowFrameCounter + 1
    if c % rainbowInterval = 0 then
      let h0 := s.hueOffset + 1 / 1000
      let h := if 1 < h0 then h0 - 1 else h0
      { s with rainbowFrameCounter := c, hueOffset := h,
               colors := rainbowColors h s.colors,
               colorVersion := s.colorVersion + 1, colorDirty := false }
    else { s with rainbowFrameCounter := c }
  else s

/-- The depth-push block of animate, run only when the hand is present. -/
def tickDepthPush (rsqrt : ℚ → ℚ) (s : SimState) : SimState :=
  if s.handPresent then
    { s with velocities :=
        (applyDepthPushToParticles rsqrt s.handCentroid s.handRadius3D
          DEPTH_PUSH_STRENGTH s.positions s.velocities) }
  else s

/-- The updateParticles call of animate. -/
def tickPhysics (jitter : ℕ → V3) (s : SimState) : SimState :=
  let pv := updateParticles jitter s.handPresent s.isExploding s.handCentroid
    s.dynamicRadius s.positions s.targets s.velocities
  { s with positions := pv.1, velocities := pv.2 }

/-- The applyOcclusionToParticles call of animate. -/
def tickOcclusion (rsqrt : ℚ → ℚ) (s : SimState) : SimState :=
  let r := applyOcclusionToParticles rsqrt s.positions s.colors
    s.occlusionFactors s.handCentroid s.handRadius3D s.handPresent
    OCCLUSION_MAX_FADE s.colorVersion s.lastColorVersionApplied
  { s with colors := r.colors, occlusionFactors := r.factors,
           lastColorVersionApplied := r.lastColorVersionApplied }

/-- The colorDirty flush of animate: colorDirty ends false whether or not
it was set (the needsUpdate upload flag is external). -/
def tickColorFlush (s : SimState) : SimState := { s with colorDirty := false }

/-- Componentwise THREE.Vector3.lerp(target, alpha). -/
def lerpV3 (v target : V3) (alpha : ℚ) : V3 :=
  ⟨lerpQ v.x target.x alpha, lerpQ v.y target.y alpha, lerpQ v.z target.z alpha⟩

/-- The mesh transform block at the end of animate: idle three-axis
rotation, bounce scale and float when no hand is present, hand-following
rotation otherwise. -/
def tickMesh (sinF cosF : ℚ → ℚ) (s : SimState) : SimState :=
  if !s.handPresent then
    let t := s.time
    let roty := s.meshRotation.y + sinF (t * (3 / 5)) * (3 / 100)
    let rotx := sinF (t * (9 / 10)) * (9 / 50)
    let rotz := cosF (t * (4 / 5)) * (3 / 20)
    let bounceScale := 1 + sinF (t * (3 / 2)) * (3 / 25)
    { s with meshRotation := ⟨rotx, roty, rotz⟩,
             meshScale := lerpV3 s.meshScale ⟨bounceScale, bounceScale, bounceScale⟩ (7 / 50),
             meshPosition := ⟨cosF (t * (9 / 10)) * (13 / 50),
                              sinF (t * 1) * (9 / 25),
                              sinF (t * (3 / 4)) * (3 / 25)⟩ }
  else
    let roty := s.meshRotation.y + (s.handCentroid.x * (1 / 20) - s.meshRotation.y) * (1 / 20)
    let rotx := s.meshRotation.x + (-s.handCentroid.y * (1 / 20) - s.meshRotation.x) * (1 / 20)
    { s with meshRotation := ⟨rotx, roty, s.meshRotation.z⟩ }

/-- One full tick of animate: time bump, staleness check, rainbow update,
depth push, physics, occlusion, colorDirty flush and mesh transform, in the
source order. -/
def animateTick (rsqrt sinF cosF : ℚ → ℚ) (rainbowInterval : ℕ)
    (jitter : ℕ → V3) (now : ℚ) (s : SimState) : SimState :=
  tickMesh sinF cosF (tickColorFlush (tickOcclusion rsqrt (tickPhysics jitter
    (tickDepthPush rsqrt (tickRainbow rainbowInterval (tickStale now (tickTime s)))))))

/-! ## Theorems -/

theorem stabCommit_iff (h : List (Option Gesture)) (cur : Gesture) (L : Gesture) :
    stabCommit h cur = some L ↔
      3 ≤ h.length ∧ h.drop (h.length - 3) = [some L, some L, some L] ∧ L ≠ cur := by
  unfold stabCommit
  by_cases hlen : h.length < GESTURE_STABILITY_FRAMES
  · rw [if_pos hlen]
    simp only [GESTURE_STABILITY_FRAMES] at hlen
    constructor
    · intro hc; exact absurd hc (by simp)
    · rintro ⟨h3, -, -⟩; omega
  · rw [if_neg hlen]
    simp only [GESTURE_STABILITY_FRAMES] at hlen ⊢
    have h3le : 3 ≤ h.length := by omega
    have hr3 : (h.drop (h.length - 3)).length = 3 := by
      rw [List.length_drop]; omega
    obtain ⟨a, b, c, habc⟩ := List.length_eq_three.mp hr3
    simp only [habc]
    rcases a with _ | g0
    · simp
    · by_cases hall : ([some g0, b, c].all (fun x => x = some g0)) = true
      · have hbc : b = some g0 ∧ c = some g0 := by simpa using hall
        simp only [List.head?, Option.some.injEq]
        rw [if_pos hall]
        by_cases hg : g0 = cur
        · rw [if_neg (by simp [hg])]
          constructor
          · intro hcontra; exact absurd hcontra (by simp)
          · rintro ⟨-, hlist, hne⟩
            obtain ⟨hgL, -, -⟩ : g0 = L ∧ b = some L ∧ c = some L := by
              simpa using hlist
            exact absurd (hgL ▸ hg) hne
        · rw [if_pos (by simp [hg])]
          constructor
          · intro hsome
            have hgL : g0 = L := by simpa using hsome
            subst hgL
            refine ⟨h3le, ?_, fun hcontra => hg hcontra⟩
            simp [hbc.1, hbc.2]
          · rintro ⟨-, hlist, -⟩
            obtain ⟨hgL, -, -⟩ : g0 = L ∧ b = some L ∧ c = some L := by
              simpa using hlist
            simp [hgL]
      · simp only [List.head?, Option.some.injEq]
        rw [if_neg hall]
        constructor
        · intro hcontra; exact absurd hcontra (by simp)
        · rintro ⟨-, hlist, -⟩
          obtain ⟨hgL, hb2, hc2⟩ : g0 = L ∧ b = some L ∧ c = some L := by
            simpa using hlist
          exact absurd (by simp [hgL, hb2, hc2]) hall

/-- C1: getStableGesture returns a commit label exactly when, after pushing
the newest raw label into the history (and evicting beyond the bound), the
history holds at least 3 entries, the most recent 3 entries all equal one
non-null label, and that label differs from the committed State.currentShape;
in every other case no commit is returned. -/
theorem getStableGesture_commit_iff (s : StabState) (g : Option Gesture) (L : Gesture) :
    (getStableGesture s g).2 = some L ↔
      3 ≤ (getStableGesture s g).1.gestureHistory.length ∧
      (getStableGesture s g).1.gestureHistory.drop
        ((getStableGesture s g).1.gestureHistory.length - 3) =
        [some L, some L, some L] ∧
      L ≠ s.currentShape := by
  have h2 : (getStableGesture s g).2 =
      stabCommit ((getStableGesture s g).1.gestureHistory) s.currentShape := rfl
  rw [h2]
  exact stabCommit_iff _ _ _

/-- C2: recognizeGesture evaluates the fixed first-match-wins priority order
over the five per-digit extension predicates: Text when index and middle are
extended and thumb, ring and pinky are not; else Star when only the index is
extended; else Heart when only the thumb is extended; else Sphere when
exactly five digits are extended; else Ring when exactly zero digits are
extended; else null. -/
theorem recognizeGesture_priority (rsqrt : ℚ → ℚ) (lms : Landmarks) :
    recognizeGesture rsqrt lms =
      classifyPriority (isThumbUp rsqrt lms) (isExtended rsqrt lms 8 6 5)
        (isExtended rsqrt lms 12 10 9) (isExtended rsqrt lms 16 14 13)
        (isExtended rsqrt lms 20 18 17) := by
  unfold recognizeGesture classifyPriority
  generalize isThumbUp rsqrt lms = t
  generalize isExtended rsqrt lms 8 6 5 = i
  generalize isExtended rsqrt lms 12 10 9 = m
  generalize isExtended rsqrt lms 16 14 13 = r
  generalize isExtended rsqrt lms 20 18 17 = p
  cases t <;> cases i <;> cases m <;> cases r <;> cases p <;> rfl

theorem tickStale_of_stale (now : ℚ) (s : SimState)
    (h : 800 < now - s.lastHandTimestamp) :
    (tickStale now s).handPresent = false ∧
    (tickStale now s).followVelocity = V3.zero := by
  unfold tickStale
  rw [if_pos h]
  exact ⟨rfl, rfl⟩

theorem tickRainbow_pose (ri : ℕ) (s : SimState) :
    (tickRainbow ri s).handPresent = s.handPresent ∧
    (tickRainbow ri s).followVelocity = s.followVelocity := by
  unfold tickRainbow
  split
  · dsimp only
    split
    · exact ⟨rfl, rfl⟩
    · exact ⟨rfl, rfl⟩
  · exact ⟨rfl, rfl⟩

theorem tickDepthPush_pose (rsqrt : ℚ → ℚ) (s : SimState) :
    (tickDepthPush rsqrt s).handPresent = s.handPresent ∧
    (tickDepthPush rsqrt s).followVelocity = s.followVelocity := by
  unfold tickDepthPush
  split
  · exact ⟨rfl, rfl⟩
  · exact ⟨rfl, rfl⟩

theorem tickPhysics_pose (jitter : ℕ → V3) (s : SimState) :
    (tickPhysics jitter s).handPresent = s.handPresent ∧
    (tickPhysics jitter s).followVelocity = s.followVelocity :=
  ⟨rfl, rfl⟩

theorem tickOcclusion_pose (rsqrt : ℚ → ℚ) (s : SimState) :
    (tickOcclusion rsqrt s).handPresent = s.handPresent ∧
    (tickOcclusion rsqrt s).followVelocity = s.followVelocity :=
  ⟨rfl, rfl⟩

theorem tickColorFlush_pose (s : SimState) :
    (tickColorFlush s).handPresent = s.handPresent ∧
    (tickColorFlush s).followVelocity = s.followVelocity :=
  ⟨rfl, rfl⟩

theorem tickMesh_pose (sinF cosF : ℚ → ℚ) (s : SimState) :
    (tickMesh sinF cosF s).handPresent = s.handPresent ∧
    (tickMesh sinF cosF s).followVelocity = s.followVelocity := by
  unfold tickMesh
  split
  · exact ⟨rfl, rfl⟩
  · exact ⟨rfl, rfl⟩

/-- C3: on every animate tick with now - State.lastHandTimestamp > 800, the
tick ends with State.handPresent = false and State.followVelocity equal to
the zero vector, whatever else the tick does. -/
theorem animate_staleness (rsqrt sinF cosF : ℚ → ℚ) (ri : ℕ) (jitter : ℕ → V3)
    (now : ℚ) (s : SimState) (h : 800 < now - s.lastHandTimestamp) :
    (animateTick rsqrt sinF cosF ri jitter now s).handPresent = false ∧
    (animateTick rsqrt sinF cosF ri jitter now s).followVelocity = V3.zero := by
  unfold animateTick
  have h0 : 800 < now - (tickTime s).lastHandTimestamp := h
  have h1 := tickStale_of_stale now (tickTime s) h0
  have h2 := tickRainbow_pose ri (tickStale now (tickTime s))
  have h3 := tickDepthPush_pose rsqrt (tickRainbow ri (tickStale now (tickTime s)))
  have h4 := tickPhysics_pose jitter
    (tickDepthPush rsqrt (tickRainbow ri (tickStale now (tickTime s))))
  have h5 := tickOcclusion_pose rsqrt (tickPhysics jitter
    (tickDepthPush rsqrt (tickRainbow ri (tickStale now (tickTime s)))))
  have h6 := tickColorFlush_pose (tickOcclusion rsqrt (tickPhysics jitter
    (tickDepthPush rsqrt (tickRainbow ri (tickStale now (tickTime s))))))
  have h7 := tickMesh_pose sinF cosF (tickColorFlush (tickOcclusion rsqrt
    (tickPhysics jitter (tickDepthPush rsqrt (tickRainbow ri
      (tickStale now (tickTime s)))))))
  constructor
  · rw [h7.1, h6.1, h5.1, h4.1, h3.1, h2.1, h1.1]
  · rw [h7.2, h6.2, h5.2, h4.2, h3.2, h2.2, h1.2]

/-- Concrete single-state instance used to witness the staleness theorem. -/
def exampleSimState : SimState :=
  ⟨0, 0, true, V3.zero, true, 0, 0, [], [], [], [], [], 0, 0, false,
    V3.zero, 1, 1, false, V3.zero, ⟨1, 1, 1⟩, V3.zero⟩

theorem animate_staleness_witness :
    (animateTick (fun _ => 0) (fun _ => 0) (fun _ => 0) 3 (fun _ => V3.zero)
      1000 exampleSimState).handPresent = false ∧
    (animateTick (fun _ => 0) (fun _ => 0) (fun _ => 0) 3 (fun _ => V3.zero)
      1000 exampleSimState).followVelocity = V3.zero :=
  animate_staleness (fun _ => 0) (fun _ => 0) (fun _ => 0) 3 (fun _ => V3.zero)
    1000 exampleSimState (by norm_num [exampleSimState])

theorem V3.add_zero_vec (v : V3) : v + V3.zero = v := by
  apply V3.ext_comp <;> simp [V3.zero]

theorem V3.sub_self_vec (v : V3) : v - v = V3.zero := by
  apply V3.ext_comp <;> simp [V3.zero]

theorem V3.smul_zero_vec (q : ℚ) : q • V3.zero = V3.zero := by
  apply V3.ext_comp <;> simp [V3.zero]

theorem V3.one_smul_vec (v : V3) : (1 : ℚ) • v = v := by
  apply V3.ext_comp <;> simp

theorem V3.smul_smul_vec (a b : ℚ) (v : V3) : a • (b • v) = (a * b) • v := by
  apply V3.ext_comp <;> simp <;> ring

theorem coastStep_eval (pv : V3 × V3) :
    coastStep pv = (pv.1 + DAMPING • pv.2, DAMPING • pv.2) := by
  unfold coastStep updateParticle
  simp only [Bool.false_eq_true, if_false]
  rw [V3.sub_self_vec, V3.smul_zero_vec, V3.add_zero_vec]

/-- C4: with DAMPING = 0.92 in (0,1), a particle receiving zero spring,
hand-force and explosion contributions on each of T consecutive
updateParticles ticks (hand absent, not exploding, target equal to position
at every tick) ends with its initial velocity scaled by DAMPING ^ T. -/
theorem damping_decay (T : ℕ) (p v : V3) :
    DAMPING = 23 / 25 ∧ 0 < DAMPING ∧ DAMPING < 1 ∧
    (coast T (p, v)).2 = (DAMPING ^ T) • v := by
  refine ⟨rfl, by norm_num [DAMPING], by norm_num [DAMPING], ?_⟩
  induction T generalizing p v with
  | zero => simp [coast, pow_zero, V3.one_smul_vec]
  | succ n ih =>
      show (coast n (coastStep (p, v))).2 = DAMPING ^ (n + 1) • v
      rw [coastStep_eval, ih, V3.smul_smul_vec, ← pow_succ]

theorem handForce_cases (r1Sq r2Sq r3Sq q : ℚ) (hq : 0 ≤ q)
    (h12 : r1Sq ≤ r2Sq) (h23 : r2Sq ≤ r3Sq) :
    0 ≤ handForce r1Sq r2Sq r3Sq q ∧
    handForce r1Sq r2Sq r3Sq q ≤ 1 / 10 ∧
    (r3Sq ≤ q → handForce r1Sq r2Sq r3Sq q = 0) ∧
    (q < r1Sq →
      handForce r1Sq r2Sq r3Sq q = 1 / 10 * (1 - q / r1Sq) * (1 - q / r1Sq)) ∧
    (r1Sq ≤ q → q < r2Sq →
      handForce r1Sq r2Sq r3Sq q =
        7 / 200 * (1 - (q - r1Sq) / (r2Sq - r1Sq)) * (1 - (q - r1Sq) / (r2Sq - r1Sq))) ∧
    (r2Sq ≤ q → q < r3Sq →
      handForce r1Sq r2Sq r3Sq q = 1 / 125 * (1 - (q - r2Sq) / (r3Sq - r2Sq))) ∧
    (r1Sq ≤ q → handForce r1Sq r2Sq r3Sq q ≤ 7 / 200) ∧
    (r2Sq ≤ q → handForce r1Sq r2Sq r3Sq q ≤ 1 / 125) := by
  unfold handForce
  split
  · rename_i h1
    have hr1 : 0 < r1Sq := lt_of_le_of_lt hq h1
    have hx0 : 0 ≤ q / r1Sq := div_nonneg hq hr1.le
    have hx1 : q / r1Sq < 1 := (div_lt_one hr1).mpr h1
    refine ⟨by nlinarith, by nlinarith, ?_, fun _ => rfl, ?_, ?_, ?_, ?_⟩
    · intro h3; exact absurd h1 (not_lt.mpr (by linarith))
    · intro hle _; exact absurd h1 (not_lt.mpr hle)
    · intro hle _; exact absurd h1 (not_lt.mpr (by linarith))
    · intro hle; exact absurd h1 (not_lt.mpr hle)
    · intro hle; exact absurd h1 (not_lt.mpr (by linarith))
  · split
    · rename_i h1 h2
      have hle1 : r1Sq ≤ q := not_lt.mp h1
      have hd : 0 < r2Sq - r1Sq := by linarith
      have hx0 : 0 ≤ (q - r1Sq) / (r2Sq - r1Sq) := div_nonneg (by linarith) hd.le
      have hx1 : (q - r1Sq) / (r2Sq - r1Sq) < 1 := (div_lt_one hd).mpr (by linarith)
      refine ⟨by nlinarith, by nlinarith, ?_, ?_, fun _ _ => rfl, ?_, fun _ => by nlinarith, ?_⟩
      · intro h3; exact absurd h2 (not_lt.mpr (by linarith))
      · intro hcontra; exact absurd hcontra (not_lt.mpr hle1)
      · intro hle _; exact absurd h2 (not_lt.mpr hle)
      · intro hle; exact absurd h2 (not_lt.mpr hle)
    · split
      · rename_i h1 h2 h3
        have hle2 : r2Sq ≤ q := not_lt.mp h2
        have hd : 0 < r3Sq - r2Sq := by linarith
        have hx0 : 0 ≤ (q - r2Sq) / (r3Sq - r2Sq) := div_nonneg (by linarith) hd.le
        have hx1 : (q - r2Sq) / (r3Sq - r2Sq) < 1 := (div_lt_one hd).mpr (by linarith)
        refine ⟨by nlinarith, by nlinarith, ?_, ?_, ?_, fun _ _ => rfl,
          fun _ => by nlinarith, fun _ => by nlinarith⟩
        · intro hcontra; exact absurd h3 (not_lt.mpr (by linarith))
        · intro hcontra; exact absurd hcontra (not_lt.mpr (by linarith))
        · intro _ hcontra; exact absurd hcontra (not_lt.mpr hle2)
      · rename_i h1 h2 h3
        have hle3 : r3Sq ≤ q := not_lt.mp h3
        refine ⟨le_refl 0, by norm_num, fun _ => rfl, ?_, ?_, ?_,
          fun _ => by norm_num, fun _ => by norm_num⟩
        · intro hcontra; exact absurd hcontra (not_lt.mpr (by linarith))
        · intro _ hcontra; exact absurd hcontra (not_lt.mpr (by linarith))
        · intro _ hcontra; exact absurd hcontra (not_lt.mpr hle3)

/-- C8: the hand force field of updateParticles uses the squared tier radii
built from r1 = 0.45 * dynamicRadius, r2 = 1.0 * dynamicRadius,
r3 = 1.7 * dynamicRadius, has quadratic falloff inside r1, quadratic falloff
between r1 and r2, linear falloff between r2 and r3 (with decreasing tier
bounds 1/10, 7/200, 1/125), is exactly zero at or beyond r3, acts along the
centroid-to-particle vector, and never decreases the inward velocity
component (the velocity change dotted with the outward vector is
nonpositive). -/
theorem handForceField_spec (dynR r1Sq r2Sq r3Sq q : ℚ) (p c v : V3)
    (hr : (r1Sq, r2Sq, r3Sq) = tierRadiiSq dynR)
    (hq : q = V3.dot (p - c) (p - c)) :
    0 ≤ handForce r1Sq r2Sq r3Sq q ∧
    handForce r1Sq r2Sq r3Sq q ≤ 1 / 10 ∧
    (r3Sq ≤ q → handForce r1Sq r2Sq r3Sq q = 0) ∧
    (q < r1Sq →
      handForce r1Sq r2Sq r3Sq q = 1 / 10 * (1 - q / r1Sq) * (1 - q / r1Sq)) ∧
    (r1Sq ≤ q → q < r2Sq →
      handForce r1Sq r2Sq r3Sq q =
        7 / 200 * (1 - (q - r1Sq) / (r2Sq - r1Sq)) * (1 - (q - r1Sq) / (r2Sq - r1Sq))) ∧
    (r2Sq ≤ q → q < r3Sq →
      handForce r1Sq r2Sq r3Sq q = 1 / 125 * (1 - (q - r2Sq) / (r3Sq - r2Sq))) ∧
    (r1Sq ≤ q → handForce r1Sq r2Sq r3Sq q ≤ 7 / 200) ∧
    (r2Sq ≤ q → handForce r1Sq r2Sq r3Sq q ≤ 1 / 125) ∧
    applyHandForce c r1Sq r2Sq r3Sq p v = v - handForce r1Sq r2Sq r3Sq q • (p - c) ∧
    V3.dot (applyHandForce c r1Sq r2Sq r3Sq p v - v) (p - c) ≤ 0 := by
  obtain ⟨hr1, hr2, hr3⟩ : r1Sq = dynR * (9 / 20) * (dynR * (9 / 20)) ∧
      r2Sq = dynR * 1 * (dynR * 1) ∧
      r3Sq = dynR * (17 / 10) * (dynR * (17 / 10)) := by
    simpa [tierRadiiSq, Prod.ext_iff] using hr
  have hq0 : 0 ≤ q := hq ▸ V3.dot_self_nonneg _
  have h12 : r1Sq ≤ r2Sq := by rw [hr1, hr2]; nlinarith [sq_nonneg dynR]
  have h23 : r2Sq ≤ r3Sq := by rw [hr2, hr3]; nlinarith [sq_nonneg dynR]
  obtain ⟨c1, c2, c3, c4, c5, c6, c7, c8⟩ := handForce_cases r1Sq r2Sq r3Sq q hq0 h12 h23
  have heq : applyHandForce c r1Sq r2Sq r3Sq p v =
      v - handForce r1Sq r2Sq r3Sq q • (p - c) := by
    rw [hq]; rfl
  have hdot : V3.dot (applyHandForce c r1Sq r2Sq r3Sq p v - v) (p - c) =
      -(handForce r1Sq r2Sq r3Sq q * q) := by
    rw [heq, hq]
    simp only [V3.dot, V3.sub_x, V3.sub_y, V3.sub_z, V3.smul_x, V3.smul_y, V3.smul_z]
    ring
  refine ⟨c1, c2, c3, c4, c5, c6, c7, c8, heq, ?_⟩
  rw [hdot]
  exact neg_nonpos.mpr (mul_nonneg c1 hq0)

theorem handForceField_witness :
    0 ≤ handForce (tierRadiiSq 1).1 (tierRadiiSq 1).2.1 (tierRadiiSq 1).2.2
        (V3.dot ((⟨1, 0, 0⟩ : V3) - V3.zero) ((⟨1, 0, 0⟩ : V3) - V3.zero)) ∧
    V3.dot
      (applyHandForce V3.zero (tierRadiiSq 1).1 (tierRadiiSq 1).2.1 (tierRadiiSq 1).2.2
          (⟨1, 0, 0⟩ : V3) V3.zero -
        V3.zero)
      ((⟨1, 0, 0⟩ : V3) - V3.zero) ≤ 0 := by
  obtain ⟨c1, -, -, -, -, -, -, -, -, c10⟩ :=
    handForceField_spec 1 (tierRadiiSq 1).1 (tierRadiiSq 1).2.1 (tierRadiiSq 1).2.2
      (V3.dot ((⟨1, 0, 0⟩ : V3) - V3.zero) ((⟨1, 0, 0⟩ : V3) - V3.zero))
      ⟨1, 0, 0⟩ V3.zero V3.zero rfl rfl
  exact ⟨c1, c10⟩

theorem depthPushOne_cases (rsqrt : ℚ → ℚ) (c : V3) (radius ps : ℚ) (p v : V3) :
    (radius * radius ≤ V3.dot (p - c) (p - c) →
      depthPushOne rsqrt c radius ps p v = v) ∧
    (V3.dot (p - c) (p - c) < radius * radius →
      depthPushOne rsqrt c radius ps p v =
        v + ((1 - (rsqrt (V3.dot (p - c) (p - c)) + EPS) / radius) * ps /
              (rsqrt (V3.dot (p - c) (p - c)) + EPS)) • (p - c)) := by
  by_cases h : V3.dot (p - c) (p - c) < radius * radius
  · refine ⟨fun hout => absurd h (not_lt.mpr hout), fun _ => ?_⟩
    simp only [depthPushOne]
    rw [if_pos h]
  · refine ⟨fun _ => ?_, fun hin => absurd hin h⟩
    simp only [depthPushOne]
    rw [if_neg h]

/-- C10: applyDepthPushToParticles modifies only the velocity buffer; a
particle whose squared distance from the hand centroid is at least
radius ^ 2 with radius = max(1.2 * handRadius, EPS) keeps its velocity
unchanged, and a particle strictly inside gains
(1 - dist/radius) * pushStrength / dist times the centroid-to-particle
vector, with dist = sqrt(distSq) + EPS; positions and colors are never
written. -/
theorem applyDepthPush_frame (rsqrt : ℚ → ℚ) (c : V3) (hr ps : ℚ) (b : Buffers)
    (i : ℕ) (h1 : i < b.positions.length) (h2 : i < b.velocities.length) :
    (applyDepthPushB rsqrt c hr ps b).positions = b.positions ∧
    (applyDepthPushB rsqrt c hr ps b).colors = b.colors ∧
    (applyDepthPushB rsqrt c hr ps b).velocities.get? i =
      some (depthPushOne rsqrt c (max (hr * (6 / 5)) EPS) ps
        b.positions[i] b.velocities[i]) ∧
    (max (hr * (6 / 5)) EPS * max (hr * (6 / 5)) EPS ≤
        V3.dot (b.positions[i] - c) (b.positions[i] - c) →
      (applyDepthPushB rsqrt c hr ps b).velocities.get? i = some b.velocities[i]) ∧
    (V3.dot (b.positions[i] - c) (b.positions[i] - c) <
        max (hr * (6 / 5)) EPS * max (hr * (6 / 5)) EPS →
      (applyDepthPushB rsqrt c hr ps b).velocities.get? i =
        some (b.velocities[i] +
          ((1 - (rsqrt (V3.dot (b.positions[i] - c) (b.positions[i] - c)) + EPS) /
              max (hr * (6 / 5)) EPS) * ps /
            (rsqrt (V3.dot (b.positions[i] - c) (b.positions[i] - c)) + EPS)) •
          (b.positions[i] - c))) := by
  have hp : b.positions.get? i = some b.positions[i] := by
    rw [List.get?_eq_getElem?]
    exact List.getElem?_eq_getElem h1
  have hv : b.velocities.get? i = some b.velocities[i] := by
    rw [List.get?_eq_getElem?]
    exact List.getElem?_eq_getElem h2
  have hget : (applyDepthPushB rsqrt c hr ps b).velocities.get? i =
      some (depthPushOne rsqrt c (max (hr * (6 / 5)) EPS) ps
        b.positions[i] b.velocities[i]) := by
    show (List.zipWith (depthPushOne rsqrt c (max (hr * (6 / 5)) EPS) ps)
      b.positions b.velocities).get? i = _
    rw [List.get?_zipWith', hp, hv]
    rfl
  obtain ⟨hout, hin⟩ := depthPushOne_cases rsqrt c (max (hr * (6 / 5)) EPS) ps
    b.positions[i] b.velocities[i]
  refine ⟨rfl, rfl, hget, ?_, ?_⟩
  · intro h; rw [hget, hout h]
  · intro h; rw [hget, hin h]

theorem applyDepthPush_frame_witness :
    (applyDepthPushB (fun _ => 0) V3.zero 1 DEPTH_PUSH_STRENGTH
      ⟨[⟨5, 0, 0⟩], [⟨0, 0, 0⟩], []⟩).velocities.get? 0 = some (⟨0, 0, 0⟩ : V3) :=
  (applyDepthPush_frame (fun _ => 0) V3.zero 1 DEPTH_PUSH_STRENGTH
      ⟨[⟨5, 0, 0⟩], [⟨0, 0, 0⟩], []⟩ 0 (by decide) (by decide)).2.2.2.1
    (by norm_num [V3.dot, V3.zero, EPS])

theorem foldl_addV3_comp (f : V3 → ℚ) (hf : ∀ a b : V3, f (a + b) = f a + f b) :
    ∀ (ws : List V3) (init : V3),
      f (ws.foldl (· + ·) init) = f init + (ws.map f).sum := by
  intro ws
  induction ws with
  | nil => intro init; simp
  | cons a l ih =>
      intro init
      simp only [List.foldl_cons, List.map_cons, List.sum_cons, ih, hf]
      ring

theorem foldl_maxSq_init_le (c : V3) :
    ∀ (ws : List V3) (init : ℚ),
      init ≤ ws.foldl (fun m w => max m (V3.sqDist w c)) init := by
  intro ws
  induction ws with
  | nil => intro init; exact le_refl _
  | cons a l ih =>
      intro init
      exact le_trans (le_max_left _ _) (ih (max init (V3.sqDist a c)))

theorem foldl_maxSq_ge (c : V3) :
    ∀ (ws : List V3) (init : ℚ), ∀ w ∈ ws,
      V3.sqDist w c ≤ ws.foldl (fun m w => max m (V3.sqDist w c)) init := by
  intro ws
  induction ws with
  | nil => intro init w hw; cases hw
  | cons a l ih =>
      intro init w hw
      rcases List.mem_cons.mp hw with rfl | hw
      · exact le_trans (le_max_right init (V3.sqDist w c))
          (foldl_maxSq_init_le c l (max init (V3.sqDist w c)))
      · exact ih (max init (V3.sqDist a c)) w hw

theorem foldl_maxSq_attained (c : V3) :
    ∀ (ws : List V3) (init : ℚ),
      ws.foldl (fun m w => max m (V3.sqDist w c)) init = init ∨
      ∃ w ∈ ws, ws.foldl (fun m w => max m (V3.sqDist w c)) init = V3.sqDist w c := by
  intro ws
  induction ws with
  | nil => intro init; exact Or.inl rfl
  | cons a l ih =>
      intro init
      rcases ih (max init (V3.sqDist a c)) with h | ⟨w, hw, h⟩
      · rcases max_choice init (V3.sqDist a c) with hm | hm
        · exact Or.inl (by rw [List.foldl_cons, h, hm])
        · exact Or.inr ⟨a, List.mem_cons_self a l, by rw [List.foldl_cons, h, hm]⟩
      · exact Or.inr ⟨w, List.mem_cons_of_mem a hw, h⟩

/-- C9: the pose normalizer maps landmark i to
((0.5 - x) * 10, (0.5 - y) * 8, z * depthScale) for any nonzero depthScale;
empty input yields the empty array and the zero-vector centroid with no
error; the centroid of a nonempty input is the componentwise mean; and the
radius is the previous radius lerped toward sqrt(maxSq) * 1.05 with the
clamped smoothing factor, where maxSq is exactly the maximum squared
distance of a landmark from the center. -/
theorem poseNormalizer_spec (rsqrt : ℚ → ℚ) (lms : List LM) (ds : ℚ)
    (ws : List V3) (c : V3) (prev s : ℚ) (i : ℕ)
    (hi : i < lms.length) (hds : ds ≠ 0) :
    (worldifyLandmarks lms ds).get? i =
      some ⟨(1 / 2 - lms[i].x) * 10, (1 / 2 - lms[i].y) * 8, lms[i].z * ds⟩ ∧
    worldifyLandmarks [] ds = [] ∧
    computeHandCenter [] = V3.zero ∧
    (ws ≠ [] → computeHandCenter ws =
      ⟨(ws.map V3.x).sum / ws.length, (ws.map V3.y).sum / ws.length,
        (ws.map V3.z).sum / ws.length⟩) ∧
    (ws ≠ [] → computeHandRadius rsqrt ws c prev s =
      lerpQ prev (rsqrt (maxSqDist ws c) * (21 / 20)) (clampQ s 0 1)) ∧
    (∀ w ∈ ws, V3.sqDist w c ≤ maxSqDist ws c) ∧
    (maxSqDist ws c = 0 ∨ ∃ w ∈ ws, maxSqDist ws c = V3.sqDist w c) := by
  have hne : lms ≠ [] := by
    intro hcontra
    rw [hcontra] at hi
    exact absurd hi (by simp)
  refine ⟨?_, rfl, rfl, ?_, ?_, ?_, ?_⟩
  · unfold worldifyLandmarks
    rw [if_neg (by simpa [List.isEmpty_iff] using hne), if_neg hds]
    rw [List.get?_map, List.get?_eq_getElem?, List.getElem?_eq_getElem hi]
    rfl
  · intro hw
    unfold computeHandCenter
    rw [if_neg (by simpa [List.isEmpty_iff] using hw)]
    apply V3.ext_comp
    · rw [V3.smul_x, foldl_addV3_comp V3.x (fun _ _ => rfl)]
      simp [V3.zero]; ring
    · rw [V3.smul_y, foldl_addV3_comp V3.y (fun _ _ => rfl)]
      simp [V3.zero]; ring
    · rw [V3.smul_z, foldl_addV3_comp V3.z (fun _ _ => rfl)]
      simp [V3.zero]; ring
  · intro hw
    unfold computeHandRadius
    rw [if_neg (by simpa [List.isEmpty_iff] using hw)]
  · exact foldl_maxSq_ge c ws 0
  · exact foldl_maxSq_attained c ws 0

theorem poseNormalizer_witness :
    (worldifyLandmarks [⟨1, 1, 1⟩] 35).get? 0 =
      some ⟨(1 / 2 - 1) * 10, (1 / 2 - 1) * 8, 1 * 35⟩ ∧
    computeHandCenter [] = V3.zero := by
  obtain ⟨h1, -, h3, -, -, -, -⟩ :=
    poseNormalizer_spec (fun _ => 0) [⟨1, 1, 1⟩] 35 [] V3.zero 1 (1 / 4) 0
      (by decide) (by norm_num)
  exact ⟨h1, h3⟩

/-- Square-root model used for the C5 evaluation: exact on the one perfect
square the run visits (1e-12, whose true square root is exactly 1e-6). -/
def rsqrtC5 : ℚ → ℚ := fun a => if a = 1 / 1000000000000 then 1 / 1000000 else 0

/-- C5 evaluation: one applyOcclusionToParticles call with handRadius 0, a
particle at (1e-6, 0, 1) and the initial occlusion factor 1 stores the
factor 7/4, strictly above the claimed upper bound 1 (the code's dist =
sqrt(distSq) + EPS makes radialFactor = -1 although the source comments it
as lying in 0-1). -/
theorem occlusionFactor_exceeds_one :
    (applyOcclusionToParticles rsqrtC5 [⟨1 / 1000000, 0, 1⟩] [⟨1, 1, 1⟩] [1]
      V3.zero 0 true OCCLUSION_MAX_FADE 0 0).factors = [7 / 4] ∧
    ¬((7 : ℚ) / 4 ≤ 1) := by
  have hrad : max ((0 : ℚ) * (5 / 4)) EPS = EPS := by norm_num [EPS]
  have hstep : occStep rsqrtC5 true V3.zero 0 OCCLUSION_MAX_FADE
      (max (0 * (5 / 4)) EPS) ⟨1 / 1000000, 0, 1⟩ ⟨1, 1, 1⟩ 1 =
      (⟨7 / 4, 7 / 4, 7 / 4⟩, 7 / 4, true) := by
    rw [hrad]
    norm_num [occStep, rsqrtC5, EPS, OCCLUSION_MAX_FADE, V3.zero, V3.divc,
      V3.mulc, abs_of_pos]
  have hcore : applyOcclusionCore rsqrtC5 true V3.zero 0 OCCLUSION_MAX_FADE
      (max (0 * (5 / 4)) EPS) [(⟨1 / 1000000, 0, 1⟩, ⟨1, 1, 1⟩, (1 : ℚ))] =
      ([(⟨7 / 4, 7 / 4, 7 / 4⟩, (7 / 4 : ℚ))], true) := by
    simp only [applyOcclusionCore, hstep, Bool.or_false]
  refine ⟨?_, by norm_num⟩
  simp only [applyOcclusionToParticles]
  rw [if_neg (by simp)]
  rw [show ([(⟨1 / 1000000, 0, 1⟩ : V3)].zip
      (([⟨1, 1, 1⟩] : List V3).zip ([1] : List ℚ))) =
    [(⟨1 / 1000000, 0, 1⟩, ⟨1, 1, 1⟩, (1 : ℚ))] from rfl]
  rw [hcore]
  rfl

theorem occStep_absent_one (rsqrt : ℚ → ℚ) (hc : V3) (hr mf rad : ℚ) (p c : V3) :
    occStep rsqrt false hc hr mf rad p c 1 = (c, 1, false) := by
  simp [occStep]

theorem occCore_absent (rsqrt : ℚ → ℚ) (hc : V3) (hr mf rad : ℚ) :
    ∀ (ps cs : List V3) (fs : List ℚ), ps.length = cs.length →
      cs.length = fs.length →
      applyOcclusionCore rsqrt false hc hr mf rad
        (ps.zip (cs.zip (fs.map (fun _ => (1 : ℚ))))) =
        (cs.zip (fs.map (fun _ => (1 : ℚ))), false) := by
  intro ps
  induction ps with
  | nil =>
      intro cs fs h1 h2
      have hcs : cs = [] := List.length_eq_zero.mp h1.symm
      subst hcs
      rfl
  | cons p ps ih =>
      intro cs fs h1 h2
      match cs, fs with
      | [], _ => exact absurd h1 (by simp)
      | c :: cs, [] => exact absurd h2 (by simp)
      | c :: cs, f :: fs =>
          have hih := ih cs fs (by simpa using h1) (by simpa using h2)
          show applyOcclusionCore rsqrt false hc hr mf rad
              ((p, c, (1 : ℚ)) :: ps.zip (cs.zip (fs.map (fun _ => (1 : ℚ))))) =
            ((c, 1) :: cs.zip (fs.map (fun _ => (1 : ℚ))), false)
          simp only [applyOcclusionCore, occStep_absent_one]
          rw [hih]
          rfl

/-- C6: when the color version token differs from the last applied one,
applyOcclusionToParticles gives a result independent of the stale
pre-bump occlusion factors (it behaves exactly as if every factor were 1),
and with the hand absent the externally written base colors come through
unchanged while every stored factor ends at 1 — no stale factor is ever
divided or multiplied into the new base colors. -/
theorem occlusion_version_reset (rsqrt : ℚ → ℚ) (positions colors : List V3)
    (factors : List ℚ) (hc : V3) (hr : ℚ) (hp : Bool) (mf : ℚ) (cv la : ℕ)
    (hla : la ≠ cv) (hlen1 : positions.length = colors.length)
    (hlen2 : colors.length = factors.length) :
    applyOcclusionToParticles rsqrt positions colors factors hc hr hp mf cv la =
      applyOcclusionToParticles rsqrt positions colors
        (factors.map (fun _ => (1 : ℚ))) hc hr hp mf cv la ∧
    (hp = false →
      (applyOcclusionToParticles rsqrt positions colors factors
          hc hr hp mf cv la).colors = colors ∧
      (applyOcclusionToParticles rsqrt positions colors factors
          hc hr hp mf cv la).factors = factors.map (fun _ => (1 : ℚ))) := by
  constructor
  · unfold applyOcclusionToParticles
    rw [if_pos hla, if_pos hla, List.map_map]
    rfl
  · intro hpf
    subst hpf
    have hcore := occCore_absent rsqrt hc hr mf (max (hr * (5 / 4)) EPS)
      positions colors factors hlen1 hlen2
    simp only [applyOcclusionToParticles]
    rw [if_pos hla, hcore]
    constructor
    · exact List.map_fst_zip colors (factors.map (fun _ => (1 : ℚ)))
        (by simp [← hlen2])
    · exact List.map_snd_zip colors (factors.map (fun _ => (1 : ℚ)))
        (by simp [hlen2])

theorem occlusion_version_reset_witness :
    (applyOcclusionToParticles (fun _ => 0) [⟨0, 0, 1⟩] [⟨1, 2, 3⟩] [1 / 2]
      V3.zero 1 false (3 / 4) 1 0).colors = [⟨1, 2, 3⟩] :=
  ((occlusion_version_reset (fun _ => 0) [⟨0, 0, 1⟩] [⟨1, 2, 3⟩] [1 / 2]
      V3.zero 1 false (3 / 4) 1 0 (by decide) rfl rfl).2 rfl).1

/-- C7 evaluation: the target-filling loop of generateText on an empty
valid-point set does not fill the targets — the wrap index guard
(length || 1) still reads validPoints[0], which is undefined, so the code
throws (modelled by none) instead of falling back; a nonempty set wrap-fills
normally. -/
theorem generateText_empty_throws (randZ : ℕ → ℚ) :
    fillTargetsFromPoints [] randZ 5 = none ∧
    fillTargetsFromPoints [⟨1, 2⟩] randZ 3 =
      some [⟨1, 2, (randZ 0 - 1 / 2) * 1⟩, ⟨1, 2, (randZ 1 - 1 / 2) * 1⟩,
        ⟨1, 2, (randZ 2 - 1 / 2) * 1⟩] :=
  ⟨rfl, rfl⟩

end GestureInteraction
